import Mathlib

/-!
# Verification of the rotating-artwork subsystem

Shallow embedding of the art service of this repository:

* `src/services/art/config.js` — pool, rotation and source configuration;
* the Art API client (`ArtClient`): content filter, orientation derivation,
  weighted source selection, the three museum adapters and the pool builder;
* the art controller's `getArtworkByOrientation`: rotation-slot computation
  on top of a TTL cache.

JavaScript numbers that carry image dimensions are modelled as `Option ℚ`
(`none` stands for a missing / `NaN` / non-finite value); strings that may be
`undefined` are modelled as `String` with `""` for the absent value, matching
the way the code only ever tests them for truthiness.
-/

set_option autoImplicit false

namespace ArtService

/-- Computed artwork orientation (`'portrait' | 'landscape'`; `null` is
modelled by `Option`). -/
inductive Orientation where
  | portrait
  | landscape
  deriving DecidableEq, Repr

/-- Normalized artwork value object, as produced by the `normalize*`
functions of `ArtClient`. -/
structure Artwork where
  imageUrl : String
  title : String
  artist : String
  date : String
  id : String
  style : String
  orientation : Option Orientation
  source : String
  deriving DecidableEq, Repr

/-- JavaScript `a || b` on strings: `""` (and `undefined`, also modelled as
`""`) falls through to the right operand. -/
def jsOr (a b : String) : String :=
  if a = "" then b else a

/-- `needle` occurs as a contiguous substring of `hay` (the model of
JavaScript `String.prototype.includes` on the character lists). -/
def containsSub (needle : List Char) : List Char → Bool
  | [] => needle.isEmpty
  | c :: rest => needle.isPrefixOf (c :: rest) || containsSub needle rest

/-- `ArtClient.containsReligiousContent`: lowercase the text and test each
configured keyword for substring containment; empty (falsy) text is never
religious. -/
def containsReligiousContent (keywords : List String) (text : String) : Bool :=
  if text = "" then false
  else keywords.any fun keyword =>
    containsSub keyword.toList (text.toList.map Char.toLower)

/-- `ArtClient.isReligiousArtwork`: the content filter applied to the
`title`, `artist` and `style` fields of a normalized artwork. -/
def isReligiousArtwork (keywords : List String) (artwork : Artwork) : Bool :=
  containsReligiousContent keywords artwork.title ||
  containsReligiousContent keywords artwork.artist ||
  containsReligiousContent keywords artwork.style

/-- The religious keyword denylist of `src/services/art/config.js`. -/
def religiousKeywords : List String :=
  ["christ", "jesus", "virgin", "madonna", "saint", "holy", "biblical", "bible",
   "apostle", "crucifixion", "resurrection", "nativity", "annunciation", "pieta",
   "crucified", "crucifix", "altar", "cathedral", "church", "monastery", "temple",
   "buddha", "buddhist", "hindu", "shiva", "vishnu", "krishna", "religious",
   "mosque", "islamic", "muhammad", "prophet", "divine", "deity", "god", "angel",
   "archangel", "gospel", "scripture", "sermon", "prayer", "blessing", "baptism",
   "communion", "eucharist", "sacred", "patron saint"]

/-- `ArtClient.deriveOrientation`: `null` when either dimension is missing,
non-finite (both modelled by `none`) or zero; `portrait` when `h > w`;
`landscape` when `w > h`; `null` for squares. -/
def deriveOrientation : Option ℚ → Option ℚ → Option Orientation
  | some w, some h =>
      if w = 0 ∨ h = 0 then none
      else if h > w then some .portrait
      else if w > h then some .landscape
      else none
  | _, _ => none

/-- Per-source configuration block (`config.sources.<key>`); only the fields
the selection logic reads are modelled. -/
structure SourceCfg where
  enabled : Bool
  weight : ℚ
  deriving DecidableEq, Repr

/-- A `{ key, weight }` entry as produced by `ArtClient.enabledSources`. -/
structure SourceEntry where
  key : String
  weight : ℚ
  deriving DecidableEq, Repr

/-- Per-orientation rotation intervals (`config.rotationIntervals`),
in seconds. -/
structure RotationIntervals where
  portrait : Nat
  landscape : Nat
  tv : Nat
  deriving DecidableEq, Repr

/-- The source table of `src/services/art/config.js` (insertion order of the
object literal preserved). -/
def configSources : List (String × SourceCfg) :=
  [("artic", ⟨true, 35⟩), ("met", ⟨true, 35⟩),
   ("cleveland", ⟨true, 20⟩), ("giphy", ⟨false, 0⟩)]

/-- `config.rotationIntervals` from `src/services/art/config.js`. -/
def configRotationIntervals : RotationIntervals :=
  { portrait := 300, landscape := 420, tv := 360 }

/-- `config.poolSize` from `src/services/art/config.js`. -/
def configPoolSize : Nat := 12

/-- `config.poolTtlSeconds` from `src/services/art/config.js`. -/
def configPoolTtlSeconds : Nat := 3600

/-- `ArtClient.enabledSources`: keep the enabled sources, mapping each to
`{ key, weight: cfg.weight || 1 }` (a configured weight of `0` is falsy in
JavaScript, so it falls back to `1`). -/
def enabledSources (sources : List (String × SourceCfg)) : List SourceEntry :=
  (sources.filter fun kc => kc.2.enabled).map fun kc =>
    ⟨kc.1, if kc.2.weight = 0 then 1 else kc.2.weight⟩

/-- The cursor walk of `ArtClient.pickWeightedSource`: accumulate weights and
return the first key whose cumulative weight is `≥ roll`. -/
def pickWeightedGo (roll : ℚ) : List SourceEntry → ℚ → Option String
  | [], _ => none
  | e :: rest, cursor =>
      let cursor' := cursor + e.weight
      if roll ≤ cursor' then some e.key else pickWeightedGo roll rest cursor'

/-- `ArtClient.pickWeightedSource`, with the random roll
(`Math.random() * totalWeight`) passed explicitly.  The trailing
`sourceEntries[0]?.key` fallback of the source is kept. -/
def pickWeightedSource (entries : List SourceEntry) (roll : ℚ) : Option String :=
  match pickWeightedGo roll entries 0 with
  | some k => some k
  | none => (entries.head?).map SourceEntry.key

/-- Errors `ArtClient.fetchArtworkPool` can raise: the configuration error
(`'No art sources enabled'`), the pool-exhaustion error (`'Failed to fetch
any ... artworks for pool'`), and a constructor for a propagated adapter
error (which the implementation is claimed never to produce: its `catch`
swallows adapter failures). -/
inductive PoolErr where
  | noSources
  | exhausted
  | adapter (message : String)
  deriving DecidableEq, Repr

/-- One fetch attempt of the pool loop: the composite outcome of
`pickWeightedSource` plus `fetchFromSource` on attempt `i`, supplied as an
oracle so that every behaviour of the source adapters (and of the random
source choice) is covered. -/
def FetchOracle : Type := Nat → Except String Artwork

/-- The attempt loop of `ArtClient.fetchArtworkPool`
(`for (attempt; attempt < maxAttempts && artworks.length < poolSize; ...)`),
recursing on the remaining attempt budget `fuel`.  Returns the collected
artworks together with the number of loop iterations executed.  A fetched
artwork is appended unless its `imageUrl` is falsy or its
`` `${source}:${id}` `` dedupe key was already seen; adapter errors are
caught and cost one attempt. -/
def poolLoop (fetch : FetchOracle) (poolSize : Nat) :
    Nat → Nat → List String → List Artwork → List Artwork × Nat
  | _, 0, _, acc => (acc, 0)
  | attempt, fuel + 1, seen, acc =>
      if poolSize ≤ acc.length then (acc, 0)
      else
        match fetch attempt with
        | .error _ =>
            let r := poolLoop fetch poolSize (attempt + 1) fuel seen acc
            (r.1, r.2 + 1)
        | .ok artwork =>
            let dedupeKey := artwork.source ++ ":" ++ artwork.id
            if artwork.imageUrl = "" ∨ seen.contains dedupeKey then
              let r := poolLoop fetch poolSize (attempt + 1) fuel seen acc
              (r.1, r.2 + 1)
            else
              let r := poolLoop fetch poolSize (attempt + 1) fuel
                (dedupeKey :: seen) (acc ++ [artwork])
              (r.1, r.2 + 1)

/-- `ArtClient.fetchArtworkPool`: fail fast when no source is enabled, run
the attempt loop with budget `poolSize * 4`, raise the pool-exhaustion error
when nothing was collected, and otherwise return the (possibly partial)
pool. -/
def fetchArtworkPool (sources : List SourceEntry) (fetch : FetchOracle)
    (poolSize : Nat) : Except PoolErr (List Artwork) :=
  if sources.isEmpty then .error .noSources
  else
    let artworks := (poolLoop fetch poolSize 0 (poolSize * 4) [] []).1
    if artworks.isEmpty then .error .exhausted
    else .ok artworks

/-- `ArtClient.randomItem` on a non-empty list: `list[Math.floor(Math.random()
* list.length)]`, with the random draw abstracted into an arbitrary natural
`pick` reduced modulo the length (every index is reachable). -/
def randomItem {α : Type} (l : List α) (pick : Nat) (h : l ≠ []) : α :=
  l.get ⟨pick % l.length, Nat.mod_lt _ (List.length_pos.mpr h)⟩

/-- Thumbnail dimensions of an ARTIC search result. -/
structure ArticThumbnail where
  width : Option ℚ
  height : Option ℚ
  deriving DecidableEq, Repr

/-- An ARTIC search result item (the fields requested by `fetchFromArtic`);
absent strings are `""`. -/
structure ArticItem where
  id : String
  title : String
  artist_display : String
  date_display : String
  image_id : String
  thumbnail : Option ArticThumbnail
  deriving DecidableEq, Repr

/-- `ArtClient.normalizeArtic`. -/
def normalizeArtic (artwork : ArticItem) (style : String) : Artwork where
  imageUrl := "https://www.artic.edu/iiif/2/" ++ artwork.image_id ++ "/full/843,/0/default.jpg"
  title := jsOr artwork.title "Untitled"
  artist := jsOr artwork.artist_display "Unknown Artist"
  date := jsOr artwork.date_display "Unknown Date"
  id := artwork.id
  style := jsOr style "Unknown Style"
  orientation :=
    match artwork.thumbnail with
    | some t => deriveOrientation t.width t.height
    | none => none
  source := "Art Institute of Chicago"

/-- The orientation predicate `fetchFromArtic` filters candidates with:
items without a thumbnail are rejected, otherwise the derived thumbnail
orientation must equal the requested one. -/
def articOriMatch (o : Orientation) (item : ArticItem) : Bool :=
  match item.thumbnail with
  | none => false
  | some t => decide (deriveOrientation t.width t.height = some o)

/-- The candidate-narrowing chain of `ArtClient.fetchFromArtic`: keep items
with an image, filter by the requested orientation — but note the fallback
`(filtered.length ? filtered : candidates)`: when no candidate matches the
requested orientation, the orientation filter is dropped — then drop
religious content. -/
def articSurvivors (items : List ArticItem) (orientation : Option Orientation)
    (style : String) (keywords : List String) : List ArticItem :=
  let candidates := items.filter fun i => i.image_id ≠ ""
  let filtered :=
    match orientation with
    | some o => candidates.filter (articOriMatch o)
    | none => candidates
  let base := if filtered.isEmpty then candidates else filtered
  base.filter fun i => !(isReligiousArtwork keywords (normalizeArtic i style))

/-- `ArtClient.fetchFromArtic`, with the search response (`items`), the
randomly chosen style and the random candidate pick passed as inputs. -/
def fetchFromArtic (items : List ArticItem) (orientation : Option Orientation)
    (style : String) (pick : Nat) (keywords : List String) : Except String Artwork :=
  if (items.filter fun i => i.image_id ≠ "").isEmpty then
    .error "ARTIC: no artworks with images returned"
  else
    match articSurvivors items orientation style keywords with
    | [] => .error "ARTIC: all artworks filtered out as religious content"
    | x :: xs =>
        .ok (normalizeArtic (randomItem (x :: xs) pick (List.cons_ne_nil x xs)) style)

/-- A Met object record (the fields `normalizeMet` and `fetchFromMet` read);
`width`/`height` stand for `measurements?.[0]?.elementMeasurements?.Width` /
`.Height`. -/
structure MetObject where
  primaryImage : String
  primaryImageSmall : String
  title : String
  artistDisplayName : String
  objectDate : String
  objectBeginDate : String
  objectID : String
  classification : String
  department : String
  width : Option ℚ
  height : Option ℚ
  deriving DecidableEq, Repr

/-- `ArtClient.normalizeMet`. -/
def normalizeMet (object : MetObject) : Artwork where
  imageUrl := jsOr object.primaryImageSmall object.primaryImage
  title := jsOr object.title "Untitled"
  artist := jsOr object.artistDisplayName "Unknown Artist"
  date := jsOr object.objectDate (jsOr object.objectBeginDate "Unknown Date")
  id := object.objectID
  style := jsOr object.classification (jsOr object.department "Unknown Style")
  orientation := deriveOrientation object.width object.height
  source := "Metropolitan Museum of Art"

/-- The retry loop of `ArtClient.fetchFromMet`: up to the attempt budget,
fetch a random object (abstracted into the oracle `getObj`, whose `error`
covers both a failed request and a falsy response body), skip objects
without a primary image, skip orientation mismatches (but accept a `null`
computed orientation), skip religious artworks, and return the first
survivor. -/
def metLoop (getObj : Nat → Except Unit MetObject)
    (orientation : Option Orientation) (keywords : List String) :
    Nat → Nat → Except String Artwork
  | _, 0 => .error "Met: unable to find non-religious image matching orientation"
  | i, fuel + 1 =>
      match getObj i with
      | .error _ => metLoop getObj orientation keywords (i + 1) fuel
      | .ok object =>
          if object.primaryImage = "" ∧ object.primaryImageSmall = "" then
            metLoop getObj orientation keywords (i + 1) fuel
          else
            let normalized := normalizeMet object
            if (match orientation, normalized.orientation with
                | some o, some m => decide (m ≠ o)
                | _, _ => false) then
              metLoop getObj orientation keywords (i + 1) fuel
            else if isReligiousArtwork keywords normalized then
              metLoop getObj orientation keywords (i + 1) fuel
            else
              .ok normalized

/-- `ArtClient.fetchFromMet`: fail when the search returned no object ids,
otherwise run the retry loop with budget `Math.min(20, ids.length)`. -/
def fetchFromMet (ids : List String) (getObj : Nat → Except Unit MetObject)
    (orientation : Option Orientation) (keywords : List String) :
    Except String Artwork :=
  if ids.isEmpty then .error "Met: no objects returned for query"
  else metLoop getObj orientation keywords 0 (min 20 ids.length)

/-- One image rendition of a Cleveland item. -/
structure ClevImage where
  url : String
  width : Option ℚ
  height : Option ℚ
  deriving DecidableEq, Repr

/-- The `images` object of a Cleveland item. -/
structure ClevImages where
  web : Option ClevImage
  print : Option ClevImage
  digital : Option ClevImage
  tiny : Option ClevImage
  deriving DecidableEq, Repr

/-- One entry of a Cleveland item's `creators` array. -/
structure ClevCreator where
  description : String
  role : String
  name : String
  deriving DecidableEq, Repr

/-- A Cleveland search result item (fields read by `normalizeCleveland`);
the JSON field `type` is modelled as `itemType`. -/
structure ClevItem where
  images : Option ClevImages
  title : String
  creators : List ClevCreator
  creator : String
  creation_date : String
  creation_date_earliest : String
  id : String
  department : String
  itemType : String
  deriving DecidableEq, Repr

/-- JavaScript `a || b` on optional numbers: `undefined` (here `none`) and
`0` are falsy and fall through to the right operand. -/
def jsOrNum (a b : Option ℚ) : Option ℚ :=
  match a with
  | some x => if x = 0 then b else some x
  | none => b

/-- `item.images?.<sel>?.url`, with `""` for an absent value. -/
def clevUrl (images : Option ClevImages) (sel : ClevImages → Option ClevImage) : String :=
  match images.bind sel with
  | some i => i.url
  | none => ""

/-- `item.images?.web?.width || item.images?.print?.width` (and the
corresponding height chain). -/
def clevDim (images : Option ClevImages) (dim : ClevImage → Option ℚ) : Option ℚ :=
  jsOrNum ((images.bind fun i => i.web).bind dim)
    ((images.bind fun i => i.print).bind dim)

/-- `ArtClient.normalizeCleveland`. -/
def normalizeCleveland (item : ClevItem) : Artwork where
  imageUrl :=
    jsOr (clevUrl item.images fun i => i.web)
      (jsOr (clevUrl item.images fun i => i.print)
        (jsOr (clevUrl item.images fun i => i.digital)
          (clevUrl item.images fun i => i.tiny)))
  title := jsOr item.title "Untitled"
  artist :=
    jsOr (String.intercalate ", "
      ((item.creators.map fun c => jsOr c.description (jsOr c.role c.name)).filter
        fun s => s ≠ ""))
      (jsOr item.creator "Unknown Artist")
  date := jsOr item.creation_date (jsOr item.creation_date_earliest "Unknown Date")
  id := item.id
  style := jsOr item.department (jsOr item.itemType "Unknown Style")
  orientation :=
    deriveOrientation (clevDim item.images fun i => i.width)
      (clevDim item.images fun i => i.height)
  source := "Cleveland Museum of Art"

/-- The orientation predicate `fetchFromCleveland` filters candidates with:
`!ori || ori === orientation`, i.e. a `null` derived orientation is
accepted. -/
def clevOriMatch (o : Orientation) (item : ClevItem) : Bool :=
  match deriveOrientation (clevDim item.images fun i => i.width)
      (clevDim item.images fun i => i.height) with
  | none => true
  | some m => decide (m = o)

/-- The candidate-narrowing chain of `ArtClient.fetchFromCleveland`: keep
items with an `images` object, filter by `!ori || ori === orientation`
(with the same empty-filter fallback as ARTIC), then drop religious
content. -/
def clevSurvivors (items : List ClevItem) (orientation : Option Orientation)
    (keywords : List String) : List ClevItem :=
  let candidates := items.filter fun i => i.images.isSome
  let filtered :=
    match orientation with
    | some o => candidates.filter (clevOriMatch o)
    | none => candidates
  let base := if filtered.isEmpty then candidates else filtered
  base.filter fun i => !(isReligiousArtwork keywords (normalizeCleveland i))

/-- `ArtClient.fetchFromCleveland`, with the search response and the random
candidate pick passed as inputs.  It additionally rejects a selected
artwork without an image url. -/
def fetchFromCleveland (items : List ClevItem) (orientation : Option Orientation)
    (pick : Nat) (keywords : List String) : Except String Artwork :=
  if (items.filter fun i => i.images.isSome).isEmpty then
    .error "Cleveland: no artworks with images returned"
  else
    match clevSurvivors items orientation keywords with
    | [] => .error "Cleveland: all artworks filtered out as religious content"
    | x :: xs =>
        let normalized :=
          normalizeCleveland (randomItem (x :: xs) pick (List.cons_ne_nil x xs))
        if normalized.imageUrl = "" then
          .error "Cleveland: selected artwork missing image url"
        else .ok normalized

/-- The inputs of one `ArtClient.fetchFromSource` call, covering all three
source adapters (the museum API responses and random draws are data of the
call). -/
inductive AdapterCall where
  | artic (items : List ArticItem) (style : String) (pick : Nat)
  | met (ids : List String) (getObj : Nat → Except Unit MetObject)
  | cleveland (items : List ClevItem) (pick : Nat)

/-- `ArtClient.fetchFromSource`: dispatch to the adapter the call belongs
to. -/
def runAdapter (keywords : List String) (orientation : Option Orientation) :
    AdapterCall → Except String Artwork
  | .artic items style pick => fetchFromArtic items orientation style pick keywords
  | .met ids getObj => fetchFromMet ids getObj orientation keywords
  | .cleveland items pick => fetchFromCleveland items orientation pick keywords

/-- One entry of the TTL cache: key, stored value and absolute expiry time
in epoch milliseconds. -/
structure CacheEntry (α : Type) where
  key : String
  value : α
  expiresAt : Nat
  deriving DecidableEq, Repr

/-- Modelled from the spec: the generic TTL cache of
`shared/middleware/cache` (not under `src/`), per §4 "TTL Cache (external
collaborator): generic get/set/delete keyed store with per-entry expiry" and
§6 "Cache contract: `get(key) -> value | undefined`,
`set(key, value, ttlSeconds)`".  A list of entries, most recent write
first. -/
abbrev Cache (α : Type) : Type := List (CacheEntry α)

/-- Modelled from the spec: `cache.get(key)` at wall-clock time `now` —
the most recently written entry for the key, provided it has not
expired. -/
def Cache.get {α : Type} (c : Cache α) (now : Nat) (key : String) : Option α :=
  match c.find? fun e => e.key == key with
  | some e => if now < e.expiresAt then some e.value else none
  | none => none

/-- Modelled from the spec: `cache.set(key, value, ttlSeconds)` at
wall-clock time `now` — the entry expires `ttlSeconds` seconds later. -/
def Cache.set {α : Type} (c : Cache α) (now : Nat) (key : String) (value : α)
    (ttlSeconds : Nat) : Cache α :=
  ⟨key, value, now + ttlSeconds * 1000⟩ :: c

/-- The art-prefixed portion of the shared cache, split by key namespace:
the controller writes artworks under `art:rotation:*` keys and pools under
`art:pool:*` keys, so the two namespaces never collide. -/
structure ArtState where
  rotation : Cache Artwork
  pool : Cache (List Artwork)
  deriving DecidableEq, Repr

/-- `CACHE_DURATIONS.ROTATION[orientation] || CACHE_DURATIONS.ROTATION.landscape`:
unknown orientations (and a falsy configured interval) fall back to the
landscape interval. -/
def rotationIntervalFor (ri : RotationIntervals) (orientation : String) : Nat :=
  let v :=
    if orientation = "portrait" then ri.portrait
    else if orientation = "landscape" then ri.landscape
    else if orientation = "tv" then ri.tv
    else 0
  if v = 0 then ri.landscape else v

/-- `filters.styles ? `:${filters.styles.join('-')}` : ''`. -/
def filterKey (filters : Option (List String)) : String :=
  match filters with
  | some styles => ":" ++ String.intercalate "-" styles
  | none => ""

/-- The rotation slot: `Math.floor(now / (rotationInterval * 1000))`
(natural division is the floor on non-negative epoch times). -/
def rotationSlot (ri : RotationIntervals) (orientation : String) (now : Nat) : Nat :=
  now / (rotationIntervalFor ri orientation * 1000)

/-- The slot cache key
`` `${CACHE_KEYS.ROTATION}:${orientation}${filterKey}:${rotationSlot}` ``. -/
def rotationCacheKey (ri : RotationIntervals) (orientation : String)
    (filters : Option (List String)) (now : Nat) : String :=
  "art:rotation:" ++ orientation ++ filterKey filters ++ ":"
    ++ toString (rotationSlot ri orientation now)

/-- The pool cache key `` `${CACHE_KEYS.POOL}:${orientation}${filterKey}` ``. -/
def poolCacheKey (orientation : String) (filters : Option (List String)) : String :=
  "art:pool:" ++ orientation ++ filterKey filters

/-- The pool-resolution step of `getArtworkByOrientation`: a cached
non-empty pool is used as is; a missing or empty cached pool is a miss that
runs the Pool Builder (its outcome passed in as `fetchResult`) and caches
the fresh pool with TTL `poolTtl`. -/
def resolvePool (st : ArtState) (now : Nat) (orientation : String)
    (filters : Option (List String)) (poolTtl : Nat)
    (fetchResult : Except PoolErr (List Artwork)) :
    Except PoolErr (List Artwork × ArtState) :=
  let key := poolCacheKey orientation filters
  match st.pool.get now key with
  | some p =>
      if p.isEmpty then
        fetchResult.map fun q => (q, { st with pool := st.pool.set now key q poolTtl })
      else .ok (p, st)
  | none =>
      fetchResult.map fun q => (q, { st with pool := st.pool.set now key q poolTtl })

/-- The value/state pair returned by `getArtworkByOrientation`; the artwork
is `none` exactly when the code would return JavaScript `undefined` (an
empty pool reached the indexing step). -/
structure GetOut where
  artwork : Option Artwork
  state : ArtState
  deriving DecidableEq, Repr

/-- The controller's `getArtworkByOrientation` (src/services/art/controller):
compute the rotation slot from the wall clock, serve a fresh slot-cache hit
immediately, otherwise resolve the pool (cache or Pool Builder), index it at
`slot % pool.length`, cache the pick under the slot key with TTL equal to
the rotation interval, and return it.  The Pool Builder's outcome is passed
in as `fetchResult`. -/
def getArtworkByOrientation (ri : RotationIntervals) (poolTtl : Nat)
    (st : ArtState) (now : Nat) (orientation : String)
    (filters : Option (List String))
    (fetchResult : Except PoolErr (List Artwork)) : Except PoolErr GetOut :=
  let interval := rotationIntervalFor ri orientation
  let slot := rotationSlot ri orientation now
  let rotKey := rotationCacheKey ri orientation filters now
  match st.rotation.get now rotKey with
  | some cachedArtwork => .ok ⟨some cachedArtwork, st⟩
  | none =>
      (resolvePool st now orientation filters poolTtl fetchResult).map
        fun ps =>
          match h : ps.1 with
          | [] => ⟨none, ps.2⟩
          | _ :: _ =>
              let artwork := ps.1.get ⟨slot % ps.1.length,
                Nat.mod_lt _ (List.length_pos.mpr (h ▸ List.cons_ne_nil _ _))⟩
              ⟨some artwork,
                { ps.2 with rotation := ps.2.rotation.set now rotKey artwork interval }⟩

/-- An artwork of the shape ARTIC produces, used to exercise the pool
builder on concrete runs. -/
def awA : Artwork :=
  ⟨"https://www.artic.edu/iiif/2/img1/full/843,/0/default.jpg", "Composition I",
   "Piet Mondrian", "1920", "1", "Abstract", some .portrait,
   "Art Institute of Chicago"⟩

/-- A second concrete artwork with a distinct id. -/
def awB : Artwork :=
  ⟨"https://www.artic.edu/iiif/2/img2/full/843,/0/default.jpg", "Composition II",
   "Piet Mondrian", "1921", "2", "Abstract", some .portrait,
   "Art Institute of Chicago"⟩

/-- A concrete non-religious ARTIC search item with a portrait thumbnail. -/
def articEx : ArticItem :=
  ⟨"7", "Composition", "Piet Mondrian", "1920", "img7", some ⟨some 100, some 200⟩⟩

/-- A Met object with a primary image but no measurements: its computed
orientation is `null`. -/
def metObjEx : MetObject :=
  ⟨"https://images.metmuseum.org/42.jpg", "", "Composition", "Piet Mondrian",
   "1920", "", "42", "Painting", "", none, none⟩

/-- A web image rendition with portrait dimensions. -/
def clevImgEx : ClevImage := ⟨"https://openaccess-cdn.clevelandart.org/9.jpg", some 100, some 200⟩

/-- A concrete non-religious Cleveland item with a portrait web image. -/
def clevEx : ClevItem :=
  ⟨some ⟨some clevImgEx, none, none, none⟩, "Composition III", [], "Piet Mondrian",
   "1922", "", "9", "Modern", "Painting"⟩

/-- A third concrete artwork with a distinct id. -/
def awC : Artwork :=
  ⟨"https://www.artic.edu/iiif/2/img3/full/843,/0/default.jpg", "Composition III",
   "Piet Mondrian", "1922", "3", "Abstract", some .portrait,
   "Art Institute of Chicago"⟩

/-- A cache state with an empty rotation cache and a cached three-artwork
portrait pool. -/
def stC1 : ArtState :=
  ⟨[], [⟨poolCacheKey "portrait" none, [awA, awB, awC], 999999999999⟩]⟩

/-- The state after serving `stC1` at `now = 3000000` (rotation slot 10):
the slot pick `awB` is cached until `3300000`. -/
def st1C2 : ArtState :=
  ⟨[⟨rotationCacheKey configRotationIntervals "portrait" none 3000000, awB, 3300000⟩],
   [⟨poolCacheKey "portrait" none, [awA, awB, awC], 999999999999⟩]⟩

/-! ## Helper lemmas -/

theorem pickWeightedGo_mem {roll cursor : ℚ} {entries : List SourceEntry} {k : String}
    (h : pickWeightedGo roll entries cursor = some k) :
    ∃ e ∈ entries, e.key = k := by
  induction entries generalizing cursor with
  | nil => simp [pickWeightedGo] at h
  | cons e rest ih =>
      rw [pickWeightedGo] at h
      split at h
      · exact ⟨e, List.mem_cons_self _ _, Option.some.inj h⟩
      · obtain ⟨e', he', hk⟩ := ih h
        exact ⟨e', List.mem_cons_of_mem _ he', hk⟩

theorem pickWeightedSource_mem {entries : List SourceEntry} {roll : ℚ} {k : String}
    (h : pickWeightedSource entries roll = some k) :
    ∃ e ∈ entries, e.key = k := by
  rw [pickWeightedSource] at h
  split at h
  · next k' hgo =>
      cases h
      exact pickWeightedGo_mem hgo
  · next hgo =>
      match entries, h with
      | e :: rest, h => exact ⟨e, List.mem_cons_self _ _, Option.some.inj h⟩

theorem enabledSources_mem {sources : List (String × SourceCfg)} {e : SourceEntry}
    (h : e ∈ enabledSources sources) :
    ∃ kc ∈ sources, kc.2.enabled = true ∧ e.key = kc.1 := by
  rw [enabledSources] at h
  obtain ⟨kc, hmem, rfl⟩ := List.mem_map.mp h
  exact ⟨kc, List.mem_of_mem_filter hmem, by simpa using List.of_mem_filter hmem, rfl⟩

/-! ## Claims -/

/-- C9: `deriveOrientation` returns `portrait` whenever `height > width`
(both finite, i.e. `some`, and non-zero), `landscape` whenever
`width > height`, and `null` when the dimensions are equal or either is
missing/non-finite (`none`) or zero; in particular `(100, 200)` gives
`portrait` and `(200, 100)` gives `landscape`. -/
theorem claim_C9 :
    (∀ w h : ℚ, w ≠ 0 → h ≠ 0 → h > w →
      deriveOrientation (some w) (some h) = some Orientation.portrait)
    ∧ (∀ w h : ℚ, w ≠ 0 → h ≠ 0 → w > h →
      deriveOrientation (some w) (some h) = some Orientation.landscape)
    ∧ (∀ w : ℚ, deriveOrientation (some w) (some w) = none)
    ∧ (∀ h, deriveOrientation none h = none)
    ∧ (∀ w, deriveOrientation w none = none)
    ∧ (∀ h : ℚ, deriveOrientation (some 0) (some h) = none)
    ∧ (∀ w : ℚ, deriveOrientation (some w) (some 0) = none)
    ∧ deriveOrientation (some 100) (some 200) = some Orientation.portrait
    ∧ deriveOrientation (some 200) (some 100) = some Orientation.landscape := by
  refine ⟨?_, ?_, ?_, ?_, ?_, ?_, ?_, by decide, by decide⟩
  · intro w h hw hh hgt
    simp [deriveOrientation, hw, hh, hgt]
  · intro w h hw hh hgt
    simp [deriveOrientation, hw, hh, hgt, not_lt_of_gt hgt]
  · intro w
    by_cases hw : w = 0 <;> simp [deriveOrientation, hw, lt_irrefl]
  · intro h
    cases h <;> rfl
  · intro w
    cases w <;> rfl
  · intro h
    simp [deriveOrientation]
  · intro w
    simp [deriveOrientation]

/-- Witness for C9 at the spec's concrete dimensions. -/
theorem claim_C9_witness :
    deriveOrientation (some 100) (some 200) = some Orientation.portrait
    ∧ deriveOrientation (some 200) (some 100) = some Orientation.landscape :=
  ⟨claim_C9.1 100 200 (by decide) (by decide) (by decide),
   claim_C9.2.1 200 100 (by decide) (by decide) (by decide)⟩

/-- C7 fails as stated: an enabled source whose configured weight is `0` is
mapped to weight `1` by `enabledSources` (`cfg.weight || 1`), so the
weighted selection can return it.  Concretely, with the single configured
source `giphy` enabled at weight `0`, every roll selects `giphy`. -/
theorem claim_C7_counterexample :
    ((List.lookup "giphy" [("giphy", (⟨true, 0⟩ : SourceCfg))]).map SourceCfg.weight
      = some 0)
    ∧ pickWeightedSource (enabledSources [("giphy", ⟨true, 0⟩)]) (1/2) = some "giphy" := by
  constructor
  · rfl
  · norm_num [pickWeightedSource, pickWeightedGo, enabledSources, List.filter, List.map]

/-- C7 amended: the weighted selection used by the Pool Builder never
returns a source that is not enabled (every returned key comes from
`enabledSources`, which drops disabled sources); however, an enabled source
with configured weight `0` is given effective weight `1` by
`enabledSources` and so can be selected. -/
theorem claim_C7_amended :
    (∀ (sources : List (String × SourceCfg)) (roll : ℚ) (k : String),
        pickWeightedSource (enabledSources sources) roll = some k →
        ∃ cfg : SourceCfg, (k, cfg) ∈ sources ∧ cfg.enabled = true)
    ∧ (∀ (sources : List (String × SourceCfg)) (k : String) (cfg : SourceCfg),
        (k, cfg) ∈ sources → cfg.enabled = true → cfg.weight = 0 →
        SourceEntry.mk k 1 ∈ enabledSources sources) := by
  constructor
  · intro sources roll k h
    obtain ⟨e, he, rfl⟩ := pickWeightedSource_mem h
    obtain ⟨kc, hkc, hen, hkey⟩ := enabledSources_mem he
    exact ⟨kc.2, by rw [hkey]; exact hkc, hen⟩
  · intro sources k cfg hmem hen hw
    rw [enabledSources]
    refine List.mem_map.mpr ⟨(k, cfg), ?_, by simp [hw]⟩
    exact List.mem_filter.mpr ⟨hmem, by simpa using hen⟩

/-- Witness for C7's amended claim: the real configuration's selection at
roll `10` returns `artic`, an enabled source; and an enabled weight-zero
source lands in `enabledSources` with weight `1`. -/
theorem claim_C7_amended_witness :
    (∃ cfg : SourceCfg, ("artic", cfg) ∈ configSources ∧ cfg.enabled = true)
    ∧ SourceEntry.mk "giphy" 1 ∈ enabledSources [("giphy", ⟨true, 0⟩)] :=
  ⟨claim_C7_amended.1 configSources 10 "artic" (by
      norm_num [pickWeightedSource, pickWeightedGo, enabledSources, configSources,
        List.filter, List.map]),
   claim_C7_amended.2 [("giphy", ⟨true, 0⟩)] "giphy" ⟨true, 0⟩ (by decide) rfl rfl⟩

theorem poolLoop_iterations_le (fetch : FetchOracle) (poolSize : Nat) :
    ∀ (fuel attempt : Nat) (seen : List String) (acc : List Artwork),
      (poolLoop fetch poolSize attempt fuel seen acc).2 ≤ fuel := by
  intro fuel
  induction fuel with
  | zero => intro attempt seen acc; simp [poolLoop]
  | succ m ih =>
      intro attempt seen acc
      rw [poolLoop]
      split
      · simp
      · split
        · exact Nat.succ_le_succ (ih (attempt + 1) seen acc)
        · dsimp only
          split
          · exact Nat.succ_le_succ (ih (attempt + 1) seen acc)
          · exact Nat.succ_le_succ (ih (attempt + 1) _ _)

theorem poolLoop_length_le (fetch : FetchOracle) (poolSize : Nat) :
    ∀ (fuel attempt : Nat) (seen : List String) (acc : List Artwork),
      acc.length ≤ poolSize →
      (poolLoop fetch poolSize attempt fuel seen acc).1.length ≤ poolSize := by
  intro fuel
  induction fuel with
  | zero => intro attempt seen acc hacc; simpa [poolLoop] using hacc
  | succ m ih =>
      intro attempt seen acc hacc
      rw [poolLoop]
      split
      · simpa using hacc
      · next hlt =>
        split
        · exact ih (attempt + 1) seen acc hacc
        · dsimp only
          split
          · exact ih (attempt + 1) seen acc hacc
          · exact ih (attempt + 1) _ _ (by simp; omega)

theorem fetchArtworkPool_eq {sources : List SourceEntry} (fetch : FetchOracle)
    (n : Nat) (hs : sources ≠ []) :
    fetchArtworkPool sources fetch n =
      if (poolLoop fetch n 0 (n * 4) [] []).1 = [] then .error .exhausted
      else .ok (poolLoop fetch n 0 (n * 4) [] []).1 := by
  have hse : sources.isEmpty = false := by
    cases sources with
    | nil => exact absurd rfl hs
    | cons a l => rfl
  rw [fetchArtworkPool, hse]
  simp [List.isEmpty_iff]

theorem fetchArtworkPool_ok_ne_nil {sources : List SourceEntry} {fetch : FetchOracle}
    {n : Nat} {l : List Artwork} (h : fetchArtworkPool sources fetch n = .ok l) :
    l ≠ [] := by
  rw [fetchArtworkPool] at h
  split at h
  · exact absurd h (by simp)
  · dsimp only at h
    split at h
    · exact absurd h (by simp)
    · next hne =>
        cases h
        simpa [List.isEmpty_iff] using hne

/-- C3: for every pool size `n ≥ 1` and every behaviour of the source
adapters (every fetch oracle, including one where all attempts fail), the
attempt loop of `fetchArtworkPool` runs at most `n * 4` iterations (the
function is total, so it terminates), and any pool it returns has at most
`n` artworks. -/
theorem claim_C3 (sources : List SourceEntry) (fetch : FetchOracle) (n : Nat)
    (_hn : 1 ≤ n) :
    ((poolLoop fetch n 0 (n * 4) [] []).2 ≤ n * 4)
    ∧ (∀ l, fetchArtworkPool sources fetch n = .ok l → l.length ≤ n) := by
  refine ⟨poolLoop_iterations_le fetch n (n * 4) 0 [] [], ?_⟩
  intro l h
  rw [fetchArtworkPool] at h
  split at h
  · exact absurd h (by simp)
  · dsimp only at h
    split at h
    · exact absurd h (by simp)
    · cases h
      exact poolLoop_length_le fetch n (n * 4) 0 [] [] (by simp)

/-- Witness for C3 at `n = 12` with every attempt failing: at most `48`
iterations and any returned pool has at most `12` artworks. -/
theorem claim_C3_witness :
    ((poolLoop (fun _ => .error "adapter down") 12 0 (12 * 4) [] []).2 ≤ 12 * 4)
    ∧ (∀ l, fetchArtworkPool (enabledSources configSources)
        (fun _ => .error "adapter down") 12 = .ok l → l.length ≤ 12) :=
  claim_C3 (enabledSources configSources) (fun _ => .error "adapter down") 12
    (by decide)

/-- C4: with at least one enabled source, `fetchArtworkPool` raises the
pool-exhaustion error exactly when the attempt loop collected nothing;
any non-empty (possibly partial) collection is returned as success; and an
individual adapter error is never propagated (the result is never an
`adapter` error, whatever the oracle fails with). -/
theorem claim_C4 (sources : List SourceEntry) (fetch : FetchOracle) (n : Nat)
    (hs : sources ≠ []) :
    (fetchArtworkPool sources fetch n = .error PoolErr.exhausted ↔
      (poolLoop fetch n 0 (n * 4) [] []).1 = [])
    ∧ (∀ l, (poolLoop fetch n 0 (n * 4) [] []).1 = l → l ≠ [] →
        fetchArtworkPool sources fetch n = .ok l)
    ∧ (∀ msg, fetchArtworkPool sources fetch n ≠ .error (PoolErr.adapter msg)) := by
  rw [fetchArtworkPool_eq fetch n hs]
  refine ⟨?_, ?_, ?_⟩
  · by_cases hl : (poolLoop fetch n 0 (n * 4) [] []).1 = [] <;> simp [hl]
  · intro l hl hne
    rw [hl, if_neg hne]
  · intro msg
    by_cases hl : (poolLoop fetch n 0 (n * 4) [] []).1 = [] <;> simp [hl]

/-- Witness for C4: with the real source configuration and every attempt
failing, the pool ends empty and the pool-exhaustion error is raised. -/
theorem claim_C4_witness :
    fetchArtworkPool (enabledSources configSources) (fun _ => .error "down") 12
      = .error PoolErr.exhausted :=
  (claim_C4 (enabledSources configSources) (fun _ => .error "down") 12
    (by decide)).1.mpr (by rfl)

theorem poolLoop_pool_inv (fetch : FetchOracle) (poolSize : Nat) :
    ∀ (fuel attempt : Nat) (seen : List String) (acc : List Artwork),
      (∀ a ∈ acc, a.imageUrl ≠ "") →
      (∀ a ∈ acc, (a.source ++ ":" ++ a.id) ∈ seen) →
      acc.Pairwise (fun a b => a.source ++ ":" ++ a.id ≠ b.source ++ ":" ++ b.id) →
      (∀ a ∈ (poolLoop fetch poolSize attempt fuel seen acc).1, a.imageUrl ≠ "")
      ∧ (poolLoop fetch poolSize attempt fuel seen acc).1.Pairwise
          (fun a b => a.source ++ ":" ++ a.id ≠ b.source ++ ":" ++ b.id) := by
  intro fuel
  induction fuel with
  | zero =>
      intro attempt seen acc hurl hseen hpw
      exact ⟨hurl, hpw⟩
  | succ m ih =>
      intro attempt seen acc hurl hseen hpw
      rw [poolLoop]
      split
      · exact ⟨hurl, hpw⟩
      · split
        · exact ih (attempt + 1) seen acc hurl hseen hpw
        · rename_i artwork heq
          dsimp only
          split
          · exact ih (attempt + 1) seen acc hurl hseen hpw
          · next hcond =>
            push_neg at hcond
            obtain ⟨hurl', hseen'⟩ := hcond
            have hnotin : (artwork.source ++ ":" ++ artwork.id) ∉ seen := by
              simpa using hseen'
            apply ih (attempt + 1)
            · intro a ha
              rcases List.mem_append.mp ha with h | h
              · exact hurl a h
              · simp only [List.mem_singleton] at h
                subst h
                exact hurl'
            · intro a ha
              rcases List.mem_append.mp ha with h | h
              · exact List.mem_cons_of_mem _ (hseen a h)
              · simp only [List.mem_singleton] at h
                subst h
                exact List.mem_cons_self _ _
            · refine List.pairwise_append.mpr ⟨hpw, List.pairwise_singleton _ _, ?_⟩
              intro a ha b hb
              simp only [List.mem_singleton] at hb
              subst hb
              intro hEq
              exact hnotin (hEq ▸ hseen a ha)

/-- C5: every pool `fetchArtworkPool` returns satisfies the two invariants:
each entry has a non-empty `imageUrl`, and no two entries share the same
`(source, id)` pair (the loop dedupes on the `` `${source}:${id}` ``
key). -/
theorem claim_C5 (sources : List SourceEntry) (fetch : FetchOracle) (n : Nat)
    (l : List Artwork) (h : fetchArtworkPool sources fetch n = .ok l) :
    (∀ a ∈ l, a.imageUrl ≠ "")
    ∧ l.Pairwise (fun a b => ¬(a.source = b.source ∧ a.id = b.id)) := by
  have hloop : (poolLoop fetch n 0 (n * 4) [] []).1 = l := by
    rw [fetchArtworkPool] at h
    split at h
    · exact absurd h (by simp)
    · dsimp only at h
      split at h
      · exact absurd h (by simp)
      · exact Except.ok.inj h
  obtain ⟨hurl, hpw⟩ := poolLoop_pool_inv fetch n (n * 4) 0 [] []
    (by simp) (by simp) List.Pairwise.nil
  rw [hloop] at hurl hpw
  refine ⟨hurl, hpw.imp ?_⟩
  intro a b hne hab
  exact hne (by rw [hab.1, hab.2])

/-- Witness for C5 on a concrete two-artwork pool build. -/
theorem claim_C5_witness :
    (∀ a ∈ [awA, awB], a.imageUrl ≠ "")
    ∧ ([awA, awB]).Pairwise (fun a b => ¬(a.source = b.source ∧ a.id = b.id)) :=
  claim_C5 [⟨"artic", 35⟩] (fun i => if i = 0 then .ok awA else .ok awB) 2
    [awA, awB] (by rfl)

theorem randomItem_mem {α : Type} (l : List α) (pick : Nat) (h : l ≠ []) :
    randomItem l pick h ∈ l :=
  List.get_mem l _ _

theorem fetchArtworkPool_ok_loop {sources : List SourceEntry} {fetch : FetchOracle}
    {n : Nat} {l : List Artwork} (h : fetchArtworkPool sources fetch n = .ok l) :
    (poolLoop fetch n 0 (n * 4) [] []).1 = l := by
  rw [fetchArtworkPool] at h
  split at h
  · exact absurd h (by simp)
  · dsimp only at h
    split at h
    · exact absurd h (by simp)
    · exact Except.ok.inj h

theorem poolLoop_mem (fetch : FetchOracle) (poolSize : Nat) :
    ∀ (fuel attempt : Nat) (seen : List String) (acc : List Artwork) (a : Artwork),
      a ∈ (poolLoop fetch poolSize attempt fuel seen acc).1 →
      a ∈ acc ∨ ∃ i, fetch i = .ok a := by
  intro fuel
  induction fuel with
  | zero => intro attempt seen acc a ha; exact .inl ha
  | succ m ih =>
      intro attempt seen acc a ha
      rw [poolLoop] at ha
      split at ha
      · exact .inl ha
      · split at ha
        · exact ih (attempt + 1) seen acc a ha
        · rename_i artwork heq
          dsimp only at ha
          split at ha
          · exact ih (attempt + 1) seen acc a ha
          · rcases ih (attempt + 1) _ _ a ha with hmem | hex
            · rcases List.mem_append.mp hmem with hl | hr
              · exact .inl hl
              · simp only [List.mem_singleton] at hr
                subst hr
                exact .inr ⟨attempt, heq⟩
            · exact .inr hex

theorem articSurvivors_nonreligious {items : List ArticItem}
    {o : Option Orientation} {style : String} {kw : List String} {i : ArticItem}
    (h : i ∈ articSurvivors items o style kw) :
    isReligiousArtwork kw (normalizeArtic i style) = false := by
  rw [articSurvivors.eq_def] at h
  dsimp only at h
  simpa using List.of_mem_filter h

theorem fetchFromArtic_ok_nonreligious {items : List ArticItem}
    {o : Option Orientation} {style : String} {pick : Nat} {kw : List String}
    {a : Artwork} (h : fetchFromArtic items o style pick kw = .ok a) :
    isReligiousArtwork kw a = false := by
  rw [fetchFromArtic] at h
  split at h
  · exact absurd h (by simp)
  · split at h
    · exact absurd h (by simp)
    · rename_i x xs hsurv
      cases h
      have hmem : randomItem (x :: xs) pick (List.cons_ne_nil x xs)
          ∈ articSurvivors items o style kw := by
        rw [hsurv]
        exact randomItem_mem _ _ _
      exact articSurvivors_nonreligious hmem

theorem metLoop_ok_nonreligious {getObj : Nat → Except Unit MetObject}
    {o : Option Orientation} {kw : List String} {a : Artwork} :
    ∀ (fuel i : Nat), metLoop getObj o kw i fuel = .ok a →
      isReligiousArtwork kw a = false := by
  intro fuel
  induction fuel with
  | zero => intro i h; exact absurd h (by simp [metLoop])
  | succ m ih =>
      intro i h
      rw [metLoop] at h
      split at h
      · exact ih _ h
      · split at h
        · exact ih _ h
        · dsimp only at h
          split at h
          · exact ih _ h
          · split at h
            · exact ih _ h
            · next hrel =>
                cases h
                simpa using hrel

theorem fetchFromMet_ok_nonreligious {ids : List String}
    {getObj : Nat → Except Unit MetObject} {o : Option Orientation}
    {kw : List String} {a : Artwork} (h : fetchFromMet ids getObj o kw = .ok a) :
    isReligiousArtwork kw a = false := by
  rw [fetchFromMet] at h
  split at h
  · exact absurd h (by simp)
  · exact metLoop_ok_nonreligious _ _ h

theorem clevSurvivors_nonreligious {items : List ClevItem}
    {o : Option Orientation} {kw : List String} {i : ClevItem}
    (h : i ∈ clevSurvivors items o kw) :
    isReligiousArtwork kw (normalizeCleveland i) = false := by
  rw [clevSurvivors.eq_def] at h
  dsimp only at h
  simpa using List.of_mem_filter h

theorem fetchFromCleveland_ok_nonreligious {items : List ClevItem}
    {o : Option Orientation} {pick : Nat} {kw : List String} {a : Artwork}
    (h : fetchFromCleveland items o pick kw = .ok a) :
    isReligiousArtwork kw a = false := by
  rw [fetchFromCleveland] at h
  split at h
  · exact absurd h (by simp)
  · split at h
    · exact absurd h (by simp)
    · rename_i x xs hsurv
      dsimp only at h
      split at h
      · exact absurd h (by simp)
      · cases h
        have hmem : randomItem (x :: xs) pick (List.cons_ne_nil x xs)
            ∈ clevSurvivors items o kw := by
          rw [hsurv]
          exact randomItem_mem _ _ _
        exact clevSurvivors_nonreligious hmem

theorem runAdapter_ok_nonreligious {kw : List String} {o : Option Orientation}
    {c : AdapterCall} {a : Artwork} (h : runAdapter kw o c = .ok a) :
    isReligiousArtwork kw a = false := by
  cases c with
  | artic items style pick => exact fetchFromArtic_ok_nonreligious h
  | met ids getObj => exact fetchFromMet_ok_nonreligious h
  | cleveland items pick => exact fetchFromCleveland_ok_nonreligious h

/-- C6: with the configured denylist active, no religious artwork (per
`isReligiousArtwork`) ever appears in a built pool, whichever of the three
source adapters each attempt used; in particular no pooled artwork is
titled "Madonna and Child" (the denylist contains `madonna`). -/
theorem claim_C6 (calls : Nat → AdapterCall) (o : Option Orientation)
    (sources : List SourceEntry) (n : Nat) (l : List Artwork)
    (h : fetchArtworkPool sources
      (fun i => runAdapter religiousKeywords o (calls i)) n = .ok l) :
    ∀ a ∈ l, isReligiousArtwork religiousKeywords a = false
      ∧ a.title ≠ "Madonna and Child" := by
  intro a ha
  rw [← fetchArtworkPool_ok_loop h] at ha
  rcases poolLoop_mem _ n (n * 4) 0 [] [] a ha with hmem | ⟨i, hi⟩
  · exact absurd hmem (List.not_mem_nil a)
  · have hnr : isReligiousArtwork religiousKeywords a = false :=
      runAdapter_ok_nonreligious hi
    refine ⟨hnr, ?_⟩
    intro htitle
    have : isReligiousArtwork religiousKeywords a = true := by
      rw [isReligiousArtwork, htitle]
      have hm : containsReligiousContent religiousKeywords "Madonna and Child" = true := by
        decide
      rw [hm]
      rfl
    rw [this] at hnr
    exact Bool.noConfusion hnr

/-- Witness for C6 on a concrete one-artwork pool built through the ARTIC
adapter. -/
theorem claim_C6_witness :
    isReligiousArtwork religiousKeywords (normalizeArtic articEx "Abstract") = false
    ∧ (normalizeArtic articEx "Abstract").title ≠ "Madonna and Child" :=
  claim_C6 (fun _ => .artic [articEx] "Abstract" 0) (some .portrait)
    [⟨"artic", 35⟩] 1 [normalizeArtic articEx "Abstract"] (by rfl)
    (normalizeArtic articEx "Abstract") (by simp)

theorem articSurvivors_oriMatch {items : List ArticItem} {o : Orientation}
    {style : String} {kw : List String} {i : ArticItem}
    (hfil : (items.filter fun i => i.image_id ≠ "").filter (articOriMatch o) ≠ [])
    (h : i ∈ articSurvivors items (some o) style kw) :
    articOriMatch o i = true := by
  rw [articSurvivors.eq_def] at h
  dsimp only at h
  rw [if_neg (by simpa [List.isEmpty_iff] using hfil)] at h
  exact List.of_mem_filter (List.mem_of_mem_filter h)

theorem articOriMatch_normalize {o : Orientation} {i : ArticItem} {style : String}
    (h : articOriMatch o i = true) :
    (normalizeArtic i style).orientation = some o := by
  rw [articOriMatch.eq_def] at h
  cases ht : i.thumbnail with
  | none => rw [ht] at h; exact absurd h (by simp)
  | some t =>
      rw [ht] at h
      dsimp only at h
      have hd := of_decide_eq_true h
      simp [normalizeArtic, ht, hd]

theorem metLoop_ok_orientation {getObj : Nat → Except Unit MetObject}
    {o : Orientation} {kw : List String} {a : Artwork} :
    ∀ (fuel i : Nat), metLoop getObj (some o) kw i fuel = .ok a →
      a.orientation = none ∨ a.orientation = some o := by
  intro fuel
  induction fuel with
  | zero => intro i h; exact absurd h (by simp [metLoop])
  | succ m ih =>
      intro i h
      rw [metLoop] at h
      split at h
      · exact ih _ h
      · rename_i object heq
        split at h
        · exact ih _ h
        · dsimp only at h
          split at h
          · exact ih _ h
          · next hguard =>
              split at h
              · exact ih _ h
              · cases h
                cases hmo : (normalizeMet object).orientation with
                | none => exact .inl rfl
                | some m =>
                    rw [hmo] at hguard
                    dsimp only at hguard
                    simp only [decide_eq_true_eq, not_not] at hguard
                    exact .inr (by rw [hguard])

theorem fetchFromMet_ok_orientation {ids : List String}
    {getObj : Nat → Except Unit MetObject} {o : Orientation} {kw : List String}
    {a : Artwork} (h : fetchFromMet ids getObj (some o) kw = .ok a) :
    a.orientation = none ∨ a.orientation = some o := by
  rw [fetchFromMet] at h
  split at h
  · exact absurd h (by simp)
  · exact metLoop_ok_orientation _ _ h

theorem clevSurvivors_oriMatch {items : List ClevItem} {o : Orientation}
    {kw : List String} {i : ClevItem}
    (hfil : (items.filter fun i => i.images.isSome).filter (clevOriMatch o) ≠ [])
    (h : i ∈ clevSurvivors items (some o) kw) :
    clevOriMatch o i = true := by
  rw [clevSurvivors.eq_def] at h
  dsimp only at h
  rw [if_neg (by simpa [List.isEmpty_iff] using hfil)] at h
  exact List.of_mem_filter (List.mem_of_mem_filter h)

theorem clevOriMatch_normalize {o : Orientation} {i : ClevItem}
    (h : clevOriMatch o i = true) :
    (normalizeCleveland i).orientation = none
      ∨ (normalizeCleveland i).orientation = some o := by
  rw [clevOriMatch.eq_def] at h
  cases hd : deriveOrientation (clevDim i.images fun im => im.width)
      (clevDim i.images fun im => im.height) with
  | none => exact .inl (by simp [normalizeCleveland, hd])
  | some m =>
      rw [hd] at h
      dsimp only at h
      have hm := of_decide_eq_true h
      exact .inr (by simp [normalizeCleveland, hd, hm])

/-- C8 fails as stated: the Met adapter accepts an artwork whose computed
orientation is `null` even when an orientation was requested
(`orientation && normalized.orientation && ...`), so a request for
`portrait` can return an artwork whose computed orientation is not
`portrait`.  Concretely, an object with a primary image but no
measurements is returned for a portrait request with computed orientation
`null`. -/
theorem claim_C8_counterexample :
    fetchFromMet ["42"] (fun _ => .ok metObjEx) (some Orientation.portrait)
      religiousKeywords = .ok (normalizeMet metObjEx)
    ∧ (normalizeMet metObjEx).orientation ≠ some Orientation.portrait := by
  constructor
  · rfl
  · decide

/-- C8 amended: the ARTIC adapter returns an artwork whose computed
orientation equals the requested one provided at least one candidate with
an image matches the requested orientation (otherwise its
`filtered.length ? filtered : candidates` fallback drops the orientation
filter entirely); the Met adapter only guarantees that the computed
orientation is `null` or the requested one; the Cleveland adapter accepts
`null` computed orientations too, and guarantees `null`-or-requested only
when at least one candidate is `null`-or-matching (it has the same
empty-filter fallback as ARTIC). -/
theorem claim_C8_amended :
    (∀ (items : List ArticItem) (o : Orientation) (style : String) (pick : Nat)
        (kw : List String) (a : Artwork),
      (items.filter fun i => i.image_id ≠ "").filter (articOriMatch o) ≠ [] →
      fetchFromArtic items (some o) style pick kw = .ok a →
      a.orientation = some o)
    ∧ (∀ (ids : List String) (getObj : Nat → Except Unit MetObject)
        (o : Orientation) (kw : List String) (a : Artwork),
      fetchFromMet ids getObj (some o) kw = .ok a →
      a.orientation = none ∨ a.orientation = some o)
    ∧ (∀ (items : List ClevItem) (o : Orientation) (pick : Nat)
        (kw : List String) (a : Artwork),
      (items.filter fun i => i.images.isSome).filter (clevOriMatch o) ≠ [] →
      fetchFromCleveland items (some o) pick kw = .ok a →
      a.orientation = none ∨ a.orientation = some o) := by
  refine ⟨?_, ?_, ?_⟩
  · intro items o style pick kw a hfil h
    rw [fetchFromArtic] at h
    split at h
    · exact absurd h (by simp)
    · split at h
      · exact absurd h (by simp)
      · rename_i x xs hsurv
        cases h
        have hmem : randomItem (x :: xs) pick (List.cons_ne_nil x xs)
            ∈ articSurvivors items (some o) style kw := by
          rw [hsurv]
          exact randomItem_mem _ _ _
        exact articOriMatch_normalize (articSurvivors_oriMatch hfil hmem)
  · intro ids getObj o kw a h
    exact fetchFromMet_ok_orientation h
  · intro items o pick kw a hfil h
    rw [fetchFromCleveland] at h
    split at h
    · exact absurd h (by simp)
    · split at h
      · exact absurd h (by simp)
      · rename_i x xs hsurv
        dsimp only at h
        split at h
        · exact absurd h (by simp)
        · cases h
          have hmem : randomItem (x :: xs) pick (List.cons_ne_nil x xs)
              ∈ clevSurvivors items (some o) kw := by
            rw [hsurv]
            exact randomItem_mem _ _ _
          exact clevOriMatch_normalize (clevSurvivors_oriMatch hfil hmem)

/-- Witness for C8's amended claim: each adapter conjunct applied at a
concrete portrait request. -/
theorem claim_C8_amended_witness :
    (normalizeArtic articEx "Abstract").orientation = some Orientation.portrait
    ∧ ((normalizeMet metObjEx).orientation = none
        ∨ (normalizeMet metObjEx).orientation = some Orientation.portrait)
    ∧ ((normalizeCleveland clevEx).orientation = none
        ∨ (normalizeCleveland clevEx).orientation = some Orientation.portrait) :=
  ⟨claim_C8_amended.1 [articEx] .portrait "Abstract" 0 religiousKeywords _
      (by decide) (by rfl),
   claim_C8_amended.2.1 ["42"] (fun _ => .ok metObjEx) .portrait religiousKeywords _
      (by rfl),
   claim_C8_amended.2.2 [clevEx] .portrait 0 religiousKeywords _ (by decide) (by rfl)⟩

theorem rotationIntervalFor_config_pos (o : String) :
    0 < rotationIntervalFor configRotationIntervals o := by
  rw [rotationIntervalFor]
  split_ifs <;> simp_all [configRotationIntervals]

theorem Cache.get_set_same {α : Type} (c : Cache α) (tset tget : Nat) (key : String)
    (v : α) (ttl : Nat) (hlt : tget < tset + ttl * 1000) :
    (c.set tset key v ttl).get tget key = some v := by
  rw [Cache.set, Cache.get, List.find?_cons_of_pos _ (by simp)]
  simp [hlt]

/-- C1: on a request whose rotation slot is not yet cached and whose
non-empty pool `P` is cached for `(orientation, filterSignature)`, the slot
is `floor(now / (interval * 1000))` and the served artwork is
`P[slot % P.length]`. -/
theorem claim_C1 (ri : RotationIntervals) (poolTtl : Nat) (st : ArtState)
    (now : Nat) (o : String) (filters : Option (List String)) (P : List Artwork)
    (fetchR : Except PoolErr (List Artwork))
    (hmiss : st.rotation.get now (rotationCacheKey ri o filters now) = none)
    (hpool : st.pool.get now (poolCacheKey o filters) = some P)
    (hne : P ≠ []) :
    rotationSlot ri o now = now / (rotationIntervalFor ri o * 1000)
    ∧ (getArtworkByOrientation ri poolTtl st now o filters fetchR).map GetOut.artwork
        = .ok P[rotationSlot ri o now % P.length]? := by
  refine ⟨rfl, ?_⟩
  rw [getArtworkByOrientation]
  rw [hmiss, resolvePool]
  dsimp only
  rw [hpool]
  dsimp only
  cases P with
  | nil => exact absurd rfl hne
  | cons x xs =>
      simp only [List.isEmpty_cons, Bool.false_eq_true, if_false]
      simp only [Except.map]
      dsimp only
      rw [List.getElem?_eq_getElem (Nat.mod_lt _ (List.length_pos.mpr (List.cons_ne_nil _ _)))]
      rfl

/-- Witness for C1: the spec's scenario, pool `[A, B, C]` with the portrait
interval `300`; at slot `10` the pick is `B`, at slot `11` it is `C`. -/
theorem claim_C1_witness :
    ((getArtworkByOrientation configRotationIntervals 3600 stC1 3000000 "portrait"
        none (.error .exhausted)).map GetOut.artwork = .ok (some awB))
    ∧ ((getArtworkByOrientation configRotationIntervals 3600 stC1 3300000 "portrait"
        none (.error .exhausted)).map GetOut.artwork = .ok (some awC)) := by
  constructor
  · rw [(claim_C1 configRotationIntervals 3600 stC1 3000000 "portrait" none
      [awA, awB, awC] (.error .exhausted) rfl rfl (by simp)).2]
    rfl
  · rw [(claim_C1 configRotationIntervals 3600 stC1 3300000 "portrait" none
      [awA, awB, awC] (.error .exhausted) rfl rfl (by simp)).2]
    rfl

/-- C2: two calls in the same rotation slot return the identical artwork:
if the first call (at `t1`, a slot-cache miss) returned artwork `a` and
state `st1`, any later call at `t2` in the same slot — whatever its Pool
Builder would do — hits the slot cache written by the first call and
returns the same `a` without touching the state. -/
theorem claim_C2 (poolTtl : Nat) (st : ArtState) (t1 t2 : Nat) (o : String)
    (filters : Option (List String)) (fetchR fetchR2 : Except PoolErr (List Artwork))
    (a : Artwork) (st1 : ArtState) (_hle : t1 ≤ t2)
    (hslot : rotationSlot configRotationIntervals o t1
      = rotationSlot configRotationIntervals o t2)
    (hmiss : st.rotation.get t1
      (rotationCacheKey configRotationIntervals o filters t1) = none)
    (h1 : getArtworkByOrientation configRotationIntervals poolTtl st t1 o filters
      fetchR = .ok ⟨some a, st1⟩) :
    getArtworkByOrientation configRotationIntervals poolTtl st1 t2 o filters
      fetchR2 = .ok ⟨some a, st1⟩ := by
  have hkey : rotationCacheKey configRotationIntervals o filters t2
      = rotationCacheKey configRotationIntervals o filters t1 := by
    simp only [rotationCacheKey, hslot]
  have hIk : 0 < rotationIntervalFor configRotationIntervals o * 1000 :=
    Nat.mul_pos (rotationIntervalFor_config_pos o) (by norm_num)
  have harith : t2 < t1 + rotationIntervalFor configRotationIntervals o * 1000 := by
    have e1 := Nat.div_add_mod t1 (rotationIntervalFor configRotationIntervals o * 1000)
    have e2 := Nat.div_add_mod t2 (rotationIntervalFor configRotationIntervals o * 1000)
    have m2 := Nat.mod_lt t2 hIk
    rw [rotationSlot, rotationSlot] at hslot
    have e3 : rotationIntervalFor configRotationIntervals o * 1000
        * (t1 / (rotationIntervalFor configRotationIntervals o * 1000))
      = rotationIntervalFor configRotationIntervals o * 1000
        * (t2 / (rotationIntervalFor configRotationIntervals o * 1000)) := by
      rw [hslot]
    omega
  rw [getArtworkByOrientation] at h1
  rw [hmiss] at h1
  cases hr : resolvePool st t1 o filters poolTtl fetchR with
  | error e => rw [hr] at h1; exact absurd h1 (by simp [Except.map])
  | ok ps =>
      rw [hr] at h1
      obtain ⟨P, stp⟩ := ps
      cases P with
      | nil =>
          simp only [Except.map] at h1
          exact absurd h1 (by simp)
      | cons x xs =>
          simp only [Except.map, Except.ok.injEq, GetOut.mk.injEq,
            Option.some.injEq] at h1
          obtain ⟨ha, hst⟩ := h1
          subst hst
          rw [getArtworkByOrientation]
          dsimp only
          rw [hkey, Cache.get_set_same _ _ _ _ _ _ harith]
          rw [ha]

/-- Witness for C2: a first portrait call at `t1 = 3000000` (slot 10) over
the cached pool serves `awB` leaving state `st1C2`; a second call at
`t2 = 3200000` (still slot 10) hits the slot cache and serves the same
`awB`. -/
theorem claim_C2_witness :
    getArtworkByOrientation configRotationIntervals 3600 st1C2 3200000 "portrait"
      none (.error .exhausted) = .ok ⟨some awB, st1C2⟩ :=
  claim_C2 3600 stC1 3000000 3200000 "portrait" none (.error .exhausted)
    (.error .exhausted) awB st1C2 (by norm_num) (by rfl) rfl (by rfl)

theorem resolvePool_ok_ne_nil {st : ArtState} {now : Nat} {o : String}
    {filters : Option (List String)} {poolTtl : Nat} {sources : List SourceEntry}
    {fetch : FetchOracle} {n : Nat} {P : List Artwork} {stp : ArtState}
    (h : resolvePool st now o filters poolTtl (fetchArtworkPool sources fetch n)
      = .ok (P, stp)) : P ≠ [] := by
  rw [resolvePool] at h
  split at h
  · split at h
    · cases hf : fetchArtworkPool sources fetch n with
      | error e => rw [hf] at h; exact absurd h (by simp [Except.map])
      | ok q =>
          rw [hf] at h
          simp only [Except.map, Except.ok.injEq, Prod.mk.injEq] at h
          exact h.1 ▸ fetchArtworkPool_ok_ne_nil hf
    · next hpe =>
        simp only [Except.ok.injEq, Prod.mk.injEq] at h
        intro hP
        exact hpe (by rw [h.1, hP]; rfl)
  · cases hf : fetchArtworkPool sources fetch n with
    | error e => rw [hf] at h; exact absurd h (by simp [Except.map])
    | ok q =>
        rw [hf] at h
        simp only [Except.map, Except.ok.injEq, Prod.mk.injEq] at h
        exact h.1 ▸ fetchArtworkPool_ok_ne_nil hf

/-- C10: `getArtworkByOrientation` never indexes an empty pool (no
`slot mod 0`): on a slot-cache miss, whenever the call succeeds with the
Pool Builder as its pool source, the pool it indexed is non-empty — an
empty or missing cached pool triggers a rebuild, and `fetchArtworkPool`
either returns a non-empty pool or fails before indexing. -/
theorem claim_C10 (ri : RotationIntervals) (poolTtl : Nat) (st : ArtState)
    (now : Nat) (o : String) (filters : Option (List String))
    (sources : List SourceEntry) (fetch : FetchOracle) (n : Nat) (r : GetOut)
    (hmiss : st.rotation.get now (rotationCacheKey ri o filters now) = none)
    (h : getArtworkByOrientation ri poolTtl st now o filters
      (fetchArtworkPool sources fetch n) = .ok r) :
    ∃ P : List Artwork, P ≠ []
      ∧ r.artwork = P[rotationSlot ri o now % P.length]? := by
  rw [getArtworkByOrientation] at h
  rw [hmiss] at h
  cases hr : resolvePool st now o filters poolTtl (fetchArtworkPool sources fetch n) with
  | error e => rw [hr] at h; exact absurd h (by simp [Except.map])
  | ok ps =>
      rw [hr] at h
      obtain ⟨P, stp⟩ := ps
      have hne : P ≠ [] := resolvePool_ok_ne_nil hr
      cases P with
      | nil => exact absurd rfl hne
      | cons x xs =>
          simp only [Except.map, Except.ok.injEq] at h
          refine ⟨x :: xs, List.cons_ne_nil x xs, ?_⟩
          rw [← h]
          dsimp only
          rw [List.getElem?_eq_getElem (Nat.mod_lt _ (List.length_pos.mpr (List.cons_ne_nil _ _)))]
          rfl

/-- Witness for C10: from empty caches with a Pool Builder that finds one
artwork, the served pool is the non-empty `[awA]`. -/
theorem claim_C10_witness :
    ∃ P : List Artwork, P ≠ []
      ∧ (GetOut.mk (some awA)
          ⟨[⟨rotationCacheKey configRotationIntervals "portrait" none 0, awA, 300000⟩],
           [⟨poolCacheKey "portrait" none, [awA], 3600000⟩]⟩).artwork
        = P[rotationSlot configRotationIntervals "portrait" 0 % P.length]? :=
  claim_C10 configRotationIntervals 3600 ⟨[], []⟩ 0 "portrait" none [⟨"artic", 35⟩]
    (fun _ => .ok awA) 1 _ rfl (by rfl)

end ArtService
